import Mathlib

/-!
Shallow embedding of the Staples EasySystem webhook handlers.

The JavaScript sources are near-duplicate bot handlers that relay turns
between a dialog platform and the EasySystem backend.  We model the turn
object (`TurnData`), the wire-level backend response (`EasyResponse`), and
each handler as a pure function from the turn plus an oracle describing the
outcome of every external call (circuit breaker decision, HTTP result) to
the updated turn together with the list of observable effects (HTTP posts,
platform SDK sends, breaker notifications, callback invocations).

Namespaces mirror the source files: `Dotcom` is EasySystemDotcom.js, `SBA`
is EasySystemSBA.js, `Part000` is src/unnamed/part_000.
-/

/-- Wire-level backend response.  The backend contract defines
`text`, `transfer`, `endConversation` and `contentType`; the extra
`conversationEnd` field models a read of a JSON field that is not part of
the wire contract (it is `none` in every wire-conformant response). -/
structure EasyResponse where
  text : Option String
  transfer : Bool
  endConversation : Bool
  contentType : Option String
  conversationEnd : Option Bool
deriving Repr, DecidableEq

/-- Outcome oracle for one breaker-gated backend call. -/
inductive CallResult where
  | circuitOpen
  | httpFailure
  | success (resp : EasyResponse)
deriving Repr, DecidableEq

/-- Outcome oracle for the transcript-save HTTP post. -/
inductive SaveResult where
  | success
  | failure
deriving Repr, DecidableEq

/-- Observable effects a handler can perform. -/
inductive Effect where
  | httpPost (service : String)
  | recordSuccess (service : String)
  | recordFailure (service : String)
  | sendBotMessage (message : Option String)
  | sendUserMessage (message : Option String)
  | sendWebhookResponse
  | ackCallback
  | logWarn (code : String)
  | saveSuccessCallback
  | saveErrorCallback
deriving Repr, DecidableEq

/-- The per-turn mutable object `data`: message, flags and the session
fields the handlers read and write. -/
structure TurnData where
  message : Option String
  agent_transfer : Bool
  owner : String
  businessUnit : Option String
  transfer : Bool
  endConversationFromEasySystem : Option Bool
  endConversationFromEasySystema : Option Bool
  render : Option String
  renderr : Option String
  trackOrder : Option String
  returnStatus : Option String
  content : Option String
  viaWebhook : Bool
deriving Repr, DecidableEq

/-- JavaScript String.prototype.trim, modelled on the character list so
that it evaluates inside the kernel. -/
def jsTrim (s : String) : String :=
  String.mk (((s.data.dropWhile Char.isWhitespace).reverse.dropWhile
    Char.isWhitespace).reverse)

/-- JavaScript truthiness of an optional string (undefined, null and the
empty string are falsy). -/
def truthy : Option String → Bool
  | some s => !(s == "")
  | none => false

/-- JavaScript `a || dflt` on an optional string field. -/
def strOr (o : Option String) (dflt : String) : String :=
  match o with
  | some s => if s == "" then dflt else s
  | none => dflt

/-- Guard test: `!data.message || data.message.trim() === ""`. -/
def msgBlank : Option String → Bool
  | some m => jsTrim m == ""
  | none => true

/-- Dotcom guard on the business unit: just JS truthiness. -/
def buMissingDotcom (bu : Option String) : Bool := !truthy bu

/-- SBA guard on the business unit: also rejects whitespace-only. -/
def buMissingSBA : Option String → Bool
  | some b => jsTrim b == ""
  | none => true

/-- Platform-SDK send effects (user-visible deliveries). -/
def Effect.isSend : Effect → Bool
  | Effect.sendBotMessage _ => true
  | Effect.sendUserMessage _ => true
  | Effect.sendWebhookResponse => true
  | _ => false

/-- Any HTTP request actually issued. -/
def Effect.isHttpPost : Effect → Bool
  | Effect.httpPost _ => true
  | _ => false

/-- An HTTP request to the transcript-save endpoint. -/
def Effect.isSavePost : Effect → Bool
  | Effect.httpPost s => s == "easysystem-save-api"
  | _ => false

/-- The user-visible sends among a list of effects. -/
def sends (effs : List Effect) : List Effect := effs.filter Effect.isSend

/-- The ownership field holds one of the two legal owners. -/
def ownerOk (d : TurnData) : Prop := d.owner = "kore" ∨ d.owner = "easysystem"

namespace Dotcom

def holdMessage : String := "Please hold while I transfer you to an agent."

/-- `triggerAgentTransfer` from EasySystemDotcom.js: optionally overwrite
the message, set the agent-transfer flag, set `BotUserSession.transfer`,
set the owner to kore and send a bot message. -/
def triggerAgentTransfer (d : TurnData) (messageIfAny : Option String) :
    TurnData × List Effect :=
  let d1 := if truthy messageIfAny then { d with message := messageIfAny } else d
  let d2 := { d1 with agent_transfer := true, transfer := true, owner := "kore" }
  (d2, [Effect.sendBotMessage d2.message])

/-- `handleAgentTransfer` from EasySystemDotcom.js: on a transfer response
set the session flags, take the owner to kore and send a bot message. -/
def handleAgentTransfer (resp : EasyResponse) (d : TurnData) :
    TurnData × List Effect :=
  if resp.transfer then
    let d1 := { d with transfer := resp.transfer, owner := "kore",
                       agent_transfer := true }
    (d1, [Effect.sendBotMessage d1.message])
  else
    (d, [])

/-- `safeEasySystemCall` from EasySystemDotcom.js.  The breaker decision and
the HTTP outcome are the `result` oracle; `originalCallback` is the success
continuation supplied by the caller. -/
def safeEasySystemCall (serviceName : String) (result : CallResult)
    (d : TurnData)
    (originalCallback : EasyResponse → TurnData → TurnData × List Effect) :
    TurnData × List Effect :=
  match result with
  | CallResult.circuitOpen =>
      let r := triggerAgentTransfer d (some holdMessage)
      (r.1, Effect.logWarn "CIRCUIT_BREAKER_OPEN" :: r.2)
  | CallResult.httpFailure =>
      let r := triggerAgentTransfer d (some holdMessage)
      (r.1, Effect.httpPost serviceName :: Effect.recordFailure serviceName ::
        r.2)
  | CallResult.success resp =>
      if resp.transfer || d.agent_transfer then
        let r := triggerAgentTransfer d resp.text
        (r.1, Effect.httpPost serviceName ::
          Effect.recordSuccess serviceName :: r.2)
      else
        let r := originalCallback resp d
        (r.1, Effect.httpPost serviceName ::
          Effect.recordSuccess serviceName :: r.2)

/-- `safeMessageSave` from EasySystemDotcom.js.  Note: when the breaker
denies the call the source logs and invokes the error callback but does
not return, so the HTTP post is still issued. -/
def safeMessageSave (canExec : Bool) (post : SaveResult) : List Effect :=
  let pre := if canExec then [] else
    [Effect.logWarn "CIRCUIT_BREAKER_OPEN", Effect.saveErrorCallback]
  match post with
  | SaveResult.success =>
      pre ++ [Effect.httpPost "easysystem-save-api",
        Effect.recordSuccess "easysystem-save-api",
        Effect.saveSuccessCallback]
  | SaveResult.failure =>
      pre ++ [Effect.httpPost "easysystem-save-api",
        Effect.recordFailure "easysystem-save-api",
        Effect.logWarn "MESSAGE_SAVE_FAILED", Effect.saveErrorCallback]

/-- The success continuation of `on_user_message` in EasySystemDotcom.js
(the easysystem-owner branch).  Transfer first, then endConversation (which
writes the `...Systema` field), else plain relay. -/
def userMessageCallback (resp : EasyResponse) (d : TurnData) :
    TurnData × List Effect :=
  let d1 := { d with message := resp.text }
  if resp.transfer then
    let d2 := { d1 with transfer := resp.transfer, owner := "kore",
                        agent_transfer := true }
    (d2, [Effect.sendBotMessage d2.message])
  else if resp.endConversation then
    let d2 := { d1 with
      endConversationFromEasySystema := some resp.endConversation,
      owner := "kore" }
    (d2, [Effect.sendUserMessage d2.message])
  else
    (d1, [Effect.sendUserMessage d1.message])

/-- `on_user_message` from EasySystemDotcom.js. -/
def on_user_message (d : TurnData) (saveCanExec : Bool) (savePost : SaveResult)
    (sendResult : CallResult) : TurnData × List Effect :=
  if buMissingDotcom d.businessUnit then
    (d, [Effect.sendBotMessage d.message])
  else if msgBlank d.message then
    (d, [Effect.sendBotMessage d.message])
  else if d.owner = "easysystem" then
    let saveEffs := safeMessageSave saveCanExec savePost
    let r := safeEasySystemCall "easysystem-send-api" sendResult d
      userMessageCallback
    (r.1, saveEffs ++ r.2)
  else
    let saveEffs := if d.message.isSome then safeMessageSave saveCanExec savePost
      else []
    (d, saveEffs ++ [Effect.sendBotMessage d.message])

/-- `on_bot_message` from EasySystemDotcom.js.  In the easysystem-owner
branch the function only logs: no save, no send, and the completion
callback is never invoked. -/
def on_bot_message (d : TurnData) (saveCanExec : Bool) (savePost : SaveResult) :
    TurnData × List Effect :=
  if buMissingDotcom d.businessUnit then
    (d, [Effect.sendUserMessage d.message])
  else if msgBlank d.message then
    (d, [Effect.sendUserMessage d.message])
  else if d.owner = "easysystem" then
    (d, [])
  else
    (d, safeMessageSave saveCanExec savePost ++
      [Effect.sendUserMessage d.message])

/-- `processEasySystemResponse` from EasySystemDotcom.js: three independent
`if` statements; the no-flag branch re-assigns ownership to easysystem. -/
def processEasySystemResponse (d : TurnData) (resp : EasyResponse) : TurnData :=
  let d1 := { d with message := resp.text }
  let d2 := if ¬resp.transfer ∧ ¬resp.endConversation then
      { d1 with owner := "easysystem" } else d1
  let d3 := if resp.transfer then
      { d2 with agent_transfer := true, transfer := true, owner := "kore" }
    else d2
  if resp.endConversation then
    { d3 with endConversationFromEasySystem := some resp.endConversation,
              owner := "kore" }
  else d3

/-- Success continuation of `integrations.package_tracking_handover` in
EasySystemDotcom.js: stash the response into the render fields, mirror the
flags, then force the owner to kore unconditionally and ACK (no send). -/
def packageTrackingCallback (resp : EasyResponse) (d : TurnData) :
    TurnData × List Effect :=
  let d1 := { d with render := some (strOr resp.contentType "text/plain"),
                     renderr := some (strOr resp.text "") }
  let d2 := if resp.transfer then
      { d1 with transfer := true, agent_transfer := true, owner := "kore" }
    else d1
  let d3 := if resp.endConversation then
      { d2 with endConversationFromEasySystem := some true, owner := "kore" }
    else d2
  let d4 := { d3 with owner := "kore" }
  (d4, [Effect.ackCallback])

/-- The `package_tracking_handover` pipeline (stash intent): the breaker
wrapper around the stash continuation.  The promise-level catch is
unreachable because the wrapper resolves on its internal failure path. -/
def package_tracking_handover (d : TurnData) (sendResult : CallResult) :
    TurnData × List Effect :=
  safeEasySystemCall "easysystem-send-api" sendResult d packageTrackingCallback

/-- Success continuation of `integrations.Check_Return` in
EasySystemDotcom.js (same stash shape as package tracking). -/
def checkReturnCallback (resp : EasyResponse) (d : TurnData) :
    TurnData × List Effect :=
  let d1 := { d with render := some (strOr resp.contentType "text/plain"),
                     renderr := some (strOr resp.text "") }
  let d2 := if resp.transfer then
      { d1 with transfer := true, agent_transfer := true, owner := "kore" }
    else d1
  let d3 := if resp.endConversation then
      { d2 with endConversationFromEasySystem := some true, owner := "kore" }
    else d2
  let d4 := { d3 with owner := "kore" }
  (d4, [Effect.ackCallback])

/-- The `Check_Return` pipeline (stash intent). -/
def Check_Return (d : TurnData) (sendResult : CallResult) :
    TurnData × List Effect :=
  safeEasySystemCall "easysystem-send-api" sendResult d checkReturnCallback

/-- Success continuation of `integrations.Cancel_item` in
EasySystemDotcom.js: set the message, run `handleAgentTransfer`, then
always send a user message. -/
def cancelItemCallback (resp : EasyResponse) (d : TurnData) :
    TurnData × List Effect :=
  let d1 := { d with message := resp.text }
  let r := handleAgentTransfer resp d1
  (r.1, r.2 ++ [Effect.sendUserMessage r.1.message])

/-- The `Cancel_item` pipeline (direct-send intent). -/
def Cancel_item (d : TurnData) (sendResult : CallResult) :
    TurnData × List Effect :=
  safeEasySystemCall "easysystem-send-api" sendResult d cancelItemCallback

end Dotcom

namespace SBA

def holdMessage : String := "Please hold while I transfer you to an agent."

def expertMessage : String := "I am now connecting you with a staples expert"

/-- `triggerAgentTransfer` from EasySystemSBA.js.  The first statement
overwrites `messageIfAny` with a fixed hand-off text, so the argument is
ignored. -/
def triggerAgentTransfer (d : TurnData) (_messageIfAny : Option String) :
    TurnData × List Effect :=
  let m : Option String := some expertMessage
  let d1 := if truthy m then { d with message := m } else d
  let d2 := { d1 with agent_transfer := true, transfer := true, owner := "kore" }
  (d2, [Effect.sendBotMessage d2.message])

/-- `safeEasySystemCall` from EasySystemSBA.js (records outcomes under the
service key easysystem-api regardless of the call's own service name). -/
def safeEasySystemCall (serviceName : String) (result : CallResult)
    (d : TurnData)
    (originalCallback : EasyResponse → TurnData → TurnData × List Effect) :
    TurnData × List Effect :=
  match result with
  | CallResult.circuitOpen =>
      let r := triggerAgentTransfer d (some holdMessage)
      (r.1, Effect.logWarn "CIRCUIT_BREAKER_OPEN" :: r.2)
  | CallResult.httpFailure =>
      let r := triggerAgentTransfer d (some holdMessage)
      (r.1, Effect.httpPost serviceName ::
        Effect.recordFailure "easysystem-api" :: r.2)
  | CallResult.success resp =>
      if resp.transfer || d.agent_transfer then
        let r := triggerAgentTransfer d resp.text
        (r.1, Effect.httpPost serviceName ::
          Effect.recordSuccess "easysystem-api" :: r.2)
      else
        let r := originalCallback resp d
        (r.1, Effect.httpPost serviceName ::
          Effect.recordSuccess "easysystem-api" :: r.2)

/-- `safeMessageSave` from EasySystemSBA.js (called without callbacks by
the message handlers; same missing-return shape as the Dotcom variant). -/
def safeMessageSave (canExec : Bool) (post : SaveResult) : List Effect :=
  let pre := if canExec then [] else [Effect.logWarn "CIRCUIT_BREAKER_OPEN"]
  match post with
  | SaveResult.success =>
      pre ++ [Effect.httpPost "easysystem-save-api",
        Effect.recordSuccess "easysystem-save-api"]
  | SaveResult.failure =>
      pre ++ [Effect.httpPost "easysystem-save-api",
        Effect.recordFailure "easysystem-save-api",
        Effect.logWarn "MESSAGE_SAVE_FAILED"]

/-- `processEasySystemResponse` from EasySystemSBA.js (does not touch
`BotUserSession.transfer`, unlike the Dotcom variant). -/
def processEasySystemResponse (d : TurnData) (resp : EasyResponse) : TurnData :=
  let d1 := { d with message := resp.text }
  let d2 := if ¬resp.transfer ∧ ¬resp.endConversation then
      { d1 with owner := "easysystem" } else d1
  let d3 := if resp.transfer then
      { d2 with agent_transfer := true, owner := "kore" } else d2
  if resp.endConversation then
    { d3 with endConversationFromEasySystem := some resp.endConversation,
              owner := "kore" }
  else d3

/-- `handleEasySendOutcome_Direct` from EasySystemSBA.js. -/
def handleEasySendOutcome_Direct (d : TurnData) (resp : EasyResponse) :
    TurnData × List Effect :=
  let d1 := { d with message := some (strOr resp.text "") }
  let handoffMsg := strOr resp.text holdMessage
  if resp.transfer then
    let d2 := { d1 with transfer := true }
    if d2.viaWebhook then
      let d3 := { d2 with agent_transfer := true, owner := "kore" }
      (d3, [Effect.ackCallback])
    else
      triggerAgentTransfer d2 (some handoffMsg)
  else
    let d2 := if resp.endConversation then
        { d1 with endConversationFromEasySystem := some true, owner := "kore" }
      else d1
    let d3 := processEasySystemResponse d2 resp
    (d3, [Effect.sendUserMessage d3.message])

/-- `handleEasySendError_Direct` from EasySystemSBA.js. -/
def handleEasySendError_Direct (d : TurnData) : TurnData × List Effect :=
  let d1 := { d with message := some holdMessage, agent_transfer := true,
                     transfer := true, owner := "kore" }
  (d1, [Effect.sendUserMessage d1.message])

/-- The `Cancel_item` intent pipeline in EasySystemSBA.js:
`easySendText` (breaker check, post) then the direct-send outcome or error
handler. -/
def Cancel_item (d : TurnData) (r : CallResult) : TurnData × List Effect :=
  match r with
  | CallResult.circuitOpen =>
      let res := handleEasySendError_Direct d
      (res.1, Effect.logWarn "CIRCUIT_OPEN" :: res.2)
  | CallResult.httpFailure =>
      let res := handleEasySendError_Direct d
      (res.1, Effect.httpPost "easysystem-send-api" ::
        Effect.recordFailure "easysystem-send-api" :: res.2)
  | CallResult.success resp =>
      let res := handleEasySendOutcome_Direct d resp
      (res.1, Effect.httpPost "easysystem-send-api" ::
        Effect.recordSuccess "easysystem-send-api" :: res.2)

/-- The success continuation of `on_user_message` in EasySystemSBA.js.  It
tests `response.data.conversationEnd`, a field that is not part of the
backend wire contract. -/
def userMessageCallback (resp : EasyResponse) (d : TurnData) :
    TurnData × List Effect :=
  let d1 := { d with message := resp.text }
  let d2 := if resp.conversationEnd.getD false then { d1 with owner := "kore" }
    else d1
  (d2, [Effect.sendUserMessage d2.message])

/-- `on_user_message` from EasySystemSBA.js. -/
def on_user_message (d : TurnData) (saveCanExec : Bool) (savePost : SaveResult)
    (sendResult : CallResult) : TurnData × List Effect :=
  if buMissingSBA d.businessUnit then
    (d, [Effect.sendBotMessage d.message])
  else if msgBlank d.message then
    (d, [Effect.sendBotMessage d.message])
  else if d.owner = "easysystem" then
    let saveEffs := safeMessageSave saveCanExec savePost
    let r := safeEasySystemCall "easysystem-send-api" sendResult d
      userMessageCallback
    (r.1, saveEffs ++ r.2)
  else
    let saveEffs := if d.message.isSome then safeMessageSave saveCanExec savePost
      else []
    (d, saveEffs ++ [Effect.sendBotMessage d.message])

/-- `on_bot_message` from EasySystemSBA.js (easysystem-owner branch does
nothing at all). -/
def on_bot_message (d : TurnData) (saveCanExec : Bool) (savePost : SaveResult) :
    TurnData × List Effect :=
  if buMissingSBA d.businessUnit then
    (d, [Effect.sendUserMessage d.message])
  else if msgBlank d.message then
    (d, [Effect.sendUserMessage d.message])
  else if d.owner = "easysystem" then
    (d, [])
  else
    (d, safeMessageSave saveCanExec savePost ++
      [Effect.sendUserMessage d.message])

/-- `integrations.package_tracking_handover` from EasySystemSBA.js: a
direct post (no breaker); stash into trackOrder/content; on transfer send a
bot message, otherwise force the owner to kore and ACK. -/
def package_tracking_handover (d : TurnData) (post : Option EasyResponse) :
    TurnData × List Effect :=
  match post with
  | some resp =>
      let d1 := { d with trackOrder := resp.text, content := resp.contentType }
      if resp.transfer then
        let d2 := { d1 with transfer := resp.transfer, owner := "kore",
                            agent_transfer := true }
        (d2, [Effect.httpPost "easysystem-send-api",
          Effect.sendBotMessage d2.message])
      else if resp.endConversation then
        let d2 := { d1 with
          endConversationFromEasySystem := some resp.endConversation,
          owner := "kore" }
        (d2, [Effect.httpPost "easysystem-send-api", Effect.ackCallback])
      else
        let d2 := { d1 with owner := "kore" }
        (d2, [Effect.httpPost "easysystem-send-api", Effect.ackCallback])
  | none =>
      let r := triggerAgentTransfer d (some holdMessage)
      (r.1, Effect.httpPost "easysystem-send-api" :: r.2)

/-- `integrations.Check_Return` from EasySystemSBA.js: same shape as the
tracking handler but stashes into returnStatus/content; on transfer send a
bot message, otherwise force the owner to kore and ACK. -/
def Check_Return (d : TurnData) (post : Option EasyResponse) :
    TurnData × List Effect :=
  match post with
  | some resp =>
      let d1 := { d with returnStatus := resp.text,
                         content := resp.contentType }
      if resp.transfer then
        let d2 := { d1 with transfer := resp.transfer, owner := "kore",
                            agent_transfer := true }
        (d2, [Effect.httpPost "easysystem-send-api",
          Effect.sendBotMessage d2.message])
      else if resp.endConversation then
        let d2 := { d1 with
          endConversationFromEasySystem := some resp.endConversation,
          owner := "kore" }
        (d2, [Effect.httpPost "easysystem-send-api", Effect.ackCallback])
      else
        let d2 := { d1 with owner := "kore" }
        (d2, [Effect.httpPost "easysystem-send-api", Effect.ackCallback])
  | none =>
      let r := triggerAgentTransfer d (some holdMessage)
      (r.1, Effect.httpPost "easysystem-send-api" :: r.2)

end SBA

namespace Part000

def fallbackMessage : String :=
  "Sorry I am not able to help you with that. Transferring you to an Expert."

def expertMessage : String := "I am now connecting you with a Staples Expert."

def holdMessage : String := "Please hold while I transfer you to an agent."

/-- `triggerAgentTransfer` from src/unnamed/part_000: trims the supplied
message, falls back to a fixed apology, and always sends a bot message. -/
def triggerAgentTransfer (d : TurnData) (messageIfAny : Option String) :
    TurnData × List Effect :=
  let finalMessage :=
    match messageIfAny with
    | some s => if jsTrim s == "" then fallbackMessage else jsTrim s
    | none => fallbackMessage
  let d1 := { d with message := some finalMessage, agent_transfer := true,
                     transfer := true, owner := "kore" }
  (d1, [Effect.sendBotMessage d1.message])

/-- `handleAgentTransfer` from src/unnamed/part_000 (same as Dotcom). -/
def handleAgentTransfer (resp : EasyResponse) (d : TurnData) :
    TurnData × List Effect :=
  if resp.transfer then
    let d1 := { d with transfer := resp.transfer, owner := "kore",
                       agent_transfer := true }
    (d1, [Effect.sendBotMessage d1.message])
  else
    (d, [])

/-- `safeEasySystemCall` from src/unnamed/part_000: the transfer intercept
first sets the message from the response text (with a fallback) and then
escalates with a fixed expert message. -/
def safeEasySystemCall (serviceName : String) (result : CallResult)
    (d : TurnData)
    (originalCallback : EasyResponse → TurnData → TurnData × List Effect) :
    TurnData × List Effect :=
  match result with
  | CallResult.circuitOpen =>
      let r := triggerAgentTransfer d (some holdMessage)
      (r.1, Effect.logWarn "CIRCUIT_BREAKER_OPEN" :: r.2)
  | CallResult.httpFailure =>
      let r := triggerAgentTransfer d (some holdMessage)
      (r.1, Effect.httpPost serviceName :: Effect.recordFailure serviceName ::
        r.2)
  | CallResult.success resp =>
      if resp.transfer || d.agent_transfer then
        let transferMsg :=
          match resp.text with
          | some s => if jsTrim s == "" then fallbackMessage else jsTrim s
          | none => fallbackMessage
        let d1 := { d with message := some transferMsg }
        let r := triggerAgentTransfer d1 (some expertMessage)
        (r.1, Effect.httpPost serviceName ::
          Effect.recordSuccess serviceName :: r.2)
      else
        let r := originalCallback resp d
        (r.1, Effect.httpPost serviceName ::
          Effect.recordSuccess serviceName :: r.2)

/-- Success continuation of `integrations.package_tracking_handover` in
src/unnamed/part_000: stash trackOrder/content, hand ownership to
easysystem, run `handleAgentTransfer`, then always send a user message. -/
def packageTrackingCallback (resp : EasyResponse) (d : TurnData) :
    TurnData × List Effect :=
  let d1 := { d with trackOrder := resp.text, content := resp.contentType,
                     owner := "easysystem" }
  let r := handleAgentTransfer resp d1
  (r.1, r.2 ++ [Effect.sendUserMessage r.1.message])

/-- The part_000 `package_tracking_handover` pipeline. -/
def package_tracking_handover (d : TurnData) (sendResult : CallResult) :
    TurnData × List Effect :=
  safeEasySystemCall "easysystem-send-api" sendResult d packageTrackingCallback

end Part000

/-- A well-formed sample turn used by witnesses and counterexamples. -/
def sampleTurn : TurnData :=
  { message := some "hi", agent_transfer := false, owner := "kore",
    businessUnit := some "C", transfer := false,
    endConversationFromEasySystem := none,
    endConversationFromEasySystema := none,
    render := none, renderr := none, trackOrder := none,
    returnStatus := none, content := none, viaWebhook := false }

/-- A sample turn owned by the backend system. -/
def easyOwnedTurn : TurnData :=
  { sampleTurn with
    owner := "easysystem", businessUnit := some "SA",
    message := some "bye" }

/-- A sample non-transfer, non-end response. -/
def cancelResp : EasyResponse :=
  { text := some "Cancelled", transfer := false, endConversation := false,
    contentType := none, conversationEnd := none }

/-- A sample wire-conformant end-of-conversation response. -/
def endResp : EasyResponse :=
  { text := some "Goodbye", transfer := false, endConversation := true,
    contentType := none, conversationEnd := none }

/-- A sample tracking response. -/
def trackResp : EasyResponse :=
  { text := some "Found it", transfer := false, endConversation := false,
    contentType := some "text/plain", conversationEnd := none }

/-- A sample response with both flags raised. -/
def bothFlagsResp : EasyResponse :=
  { text := some "Transferring", transfer := true, endConversation := true,
    contentType := none, conversationEnd := none }

theorem buMissingSBA_of_buMissingDotcom (bu : Option String)
    (h : buMissingDotcom bu = true) : buMissingSBA bu = true := by
  cases bu with
  | none => rfl
  | some b =>
      simp [buMissingDotcom, truthy] at h
      subst h
      rfl

theorem sends_safeMessageSave_dotcom (c : Bool) (p : SaveResult) :
    sends (Dotcom.safeMessageSave c p) = [] := by
  cases c <;> cases p <;> rfl

theorem savePost_safeMessageSave_dotcom (c : Bool) (p : SaveResult) :
    (Dotcom.safeMessageSave c p).countP Effect.isSavePost = 1 := by
  cases c <;> cases p <;> rfl

/-- C1: for every failure of the backend send call (circuit breaker denies
execution, or the HTTP call errors out or times out), both the Dotcom and
the SBA wrapper leave the turn with the agent-transfer flag set and
ownership at kore, and send their fixed hand-off message through the
platform SDK. -/
theorem C1_failure_convergence (s : String) (d : TurnData)
    (cb cb2 : EasyResponse → TurnData → TurnData × List Effect)
    (r : CallResult)
    (h : r = CallResult.circuitOpen ∨ r = CallResult.httpFailure) :
    ((Dotcom.safeEasySystemCall s r d cb).1.agent_transfer = true ∧
      (Dotcom.safeEasySystemCall s r d cb).1.owner = "kore" ∧
      Effect.sendBotMessage (some Dotcom.holdMessage) ∈
        (Dotcom.safeEasySystemCall s r d cb).2) ∧
    ((SBA.safeEasySystemCall s r d cb2).1.agent_transfer = true ∧
      (SBA.safeEasySystemCall s r d cb2).1.owner = "kore" ∧
      Effect.sendBotMessage (some SBA.expertMessage) ∈
        (SBA.safeEasySystemCall s r d cb2).2) := by
  rcases h with rfl | rfl <;>
    refine ⟨⟨rfl, rfl, ?_⟩, rfl, rfl, ?_⟩ <;>
    simp [Dotcom.safeEasySystemCall, Dotcom.triggerAgentTransfer,
      SBA.safeEasySystemCall, SBA.triggerAgentTransfer, truthy,
      Dotcom.holdMessage, SBA.holdMessage, SBA.expertMessage]

theorem C1_failure_convergence_witness :
    (Dotcom.safeEasySystemCall "easysystem-send-api" CallResult.circuitOpen
      sampleTurn Dotcom.userMessageCallback).1.owner = "kore" ∧
    (SBA.safeEasySystemCall "easysystem-send-api" CallResult.circuitOpen
      sampleTurn SBA.userMessageCallback).1.owner = "kore" := by
  have h := C1_failure_convergence "easysystem-send-api" sampleTurn
    Dotcom.userMessageCallback SBA.userMessageCallback CallResult.circuitOpen
    (Or.inl rfl)
  exact ⟨h.1.2.1, h.2.2.1⟩

/-- C2: on a response with both transfer and endConversation raised, the
cited handlers run the transfer path only: ownership goes to kore, the
agent-transfer flag is set, exactly one hand-off bot message is sent, and
the end-conversation session field is left untouched. -/
theorem C2_transfer_precedence (d : TurnData) (resp : EasyResponse)
    (ht : resp.transfer = true) (_he : resp.endConversation = true)
    (hw : d.viaWebhook = false) :
    ((Dotcom.userMessageCallback resp d).1.owner = "kore" ∧
     (Dotcom.userMessageCallback resp d).1.agent_transfer = true ∧
     (Dotcom.userMessageCallback resp d).2 =
       [Effect.sendBotMessage resp.text] ∧
     (Dotcom.userMessageCallback resp d).1.endConversationFromEasySystema =
       d.endConversationFromEasySystema) ∧
    ((SBA.handleEasySendOutcome_Direct d resp).1.owner = "kore" ∧
     (SBA.handleEasySendOutcome_Direct d resp).1.agent_transfer = true ∧
     (SBA.handleEasySendOutcome_Direct d resp).2 =
       [Effect.sendBotMessage (some SBA.expertMessage)] ∧
     (SBA.handleEasySendOutcome_Direct d resp).1.endConversationFromEasySystem
       = d.endConversationFromEasySystem) := by
  refine ⟨?_, ?_⟩ <;>
    simp [Dotcom.userMessageCallback, SBA.handleEasySendOutcome_Direct,
      SBA.triggerAgentTransfer, ht, hw, truthy, SBA.expertMessage]

theorem C2_transfer_precedence_witness :
    (Dotcom.userMessageCallback bothFlagsResp sampleTurn).1.owner = "kore" ∧
    (SBA.handleEasySendOutcome_Direct sampleTurn bothFlagsResp).2 =
      [Effect.sendBotMessage (some SBA.expertMessage)] := by
  have h := C2_transfer_precedence sampleTurn bothFlagsResp rfl rfl rfl
  exact ⟨h.1.1, h.2.2.2.1⟩

/-- C3 counterexample: the claim says a direct-send intent with a
non-transfer, non-end response leaves ownership unchanged, but the SBA
Cancel_item pipeline moves ownership from kore to easysystem. -/
theorem C3_counterexample :
    sampleTurn.owner = "kore" ∧
    (SBA.Cancel_item sampleTurn (CallResult.success cancelResp)).1.owner =
      "easysystem" := by
  exact ⟨rfl, rfl⟩

/-- C3 (amended): on the non-transfer, non-end branch a direct-send handler
relays the response text to the user; the Dotcom Cancel_item callback
leaves ownership unchanged, while the SBA outcome handler (through
processEasySystemResponse) sets ownership to easysystem. -/
theorem C3_direct_send_relay (d : TurnData) (resp : EasyResponse) (t : String)
    (h1 : resp.transfer = false) (h2 : resp.endConversation = false)
    (h3 : resp.text = some t) :
    ((SBA.handleEasySendOutcome_Direct d resp).1.message = some t ∧
     (SBA.handleEasySendOutcome_Direct d resp).2 =
       [Effect.sendUserMessage (some t)] ∧
     (SBA.handleEasySendOutcome_Direct d resp).1.owner = "easysystem") ∧
    ((Dotcom.cancelItemCallback resp d).1.message = some t ∧
     (Dotcom.cancelItemCallback resp d).2 =
       [Effect.sendUserMessage (some t)] ∧
     (Dotcom.cancelItemCallback resp d).1.owner = d.owner) := by
  refine ⟨?_, ?_⟩ <;>
    simp [SBA.handleEasySendOutcome_Direct, SBA.processEasySystemResponse,
      Dotcom.cancelItemCallback, Dotcom.handleAgentTransfer, h1, h2, h3]

theorem C3_direct_send_relay_witness :
    (SBA.handleEasySendOutcome_Direct sampleTurn cancelResp).1.owner =
      "easysystem" ∧
    (Dotcom.cancelItemCallback cancelResp sampleTurn).1.owner =
      sampleTurn.owner := by
  have h := C3_direct_send_relay sampleTurn cancelResp "Cancelled" rfl rfl rfl
  exact ⟨h.1.2.2, h.2.2.2⟩

/-- C4: at the failing input (backend-owned turn, wire-conformant response
with endConversation raised and transfer clear) the SBA user-message
handler leaves ownership at easysystem because its success continuation
tests the nonexistent conversationEnd field, while the Dotcom handler
performs the specified transition to kore; both relay the final text. -/
theorem C4_end_conversation_divergence :
    (SBA.on_user_message easyOwnedTurn true SaveResult.success
      (CallResult.success endResp)).1.owner = "easysystem" ∧
    Effect.sendUserMessage (some "Goodbye") ∈
      (SBA.on_user_message easyOwnedTurn true SaveResult.success
        (CallResult.success endResp)).2 ∧
    (Dotcom.on_user_message easyOwnedTurn true SaveResult.success
      (CallResult.success endResp)).1.owner = "kore" ∧
    Effect.sendUserMessage (some "Goodbye") ∈
      (Dotcom.on_user_message easyOwnedTurn true SaveResult.success
        (CallResult.success endResp)).2 := by
  refine ⟨rfl, ?_, rfl, ?_⟩ <;> decide

/-- C5 counterexample: the claim says a stash-category intent never sends
and always forces ownership to kore, but the part_000 tracking handler
sends a user message and hands ownership to easysystem on a non-transfer
response. -/
theorem C5_counterexample :
    Effect.sendUserMessage (some "hi") ∈
      (Part000.package_tracking_handover sampleTurn
        (CallResult.success trackResp)).2 ∧
    (Part000.package_tracking_handover sampleTurn
      (CallResult.success trackResp)).1.owner = "easysystem" := by
  refine ⟨?_, rfl⟩
  decide

/-- C5 (amended): for the Dotcom and SBA stash intents, on any successful
response with transfer clear and no pending agent-transfer flag, no
platform send occurs, the text and content-type are stashed into session
fields, and ownership is forced to kore even on success; the part_000
tracking variant instead sends the turn and hands ownership to
easysystem. -/
theorem C5_stash_non_send (d : TurnData) (resp : EasyResponse)
    (ha : d.agent_transfer = false) (ht : resp.transfer = false) :
    (sends (Dotcom.package_tracking_handover d
        (CallResult.success resp)).2 = [] ∧
     (Dotcom.package_tracking_handover d
       (CallResult.success resp)).1.owner = "kore" ∧
     (Dotcom.package_tracking_handover d (CallResult.success resp)).1.render =
       some (strOr resp.contentType "text/plain") ∧
     (Dotcom.package_tracking_handover d (CallResult.success resp)).1.renderr =
       some (strOr resp.text "")) ∧
    (sends (Dotcom.Check_Return d (CallResult.success resp)).2 = [] ∧
     (Dotcom.Check_Return d (CallResult.success resp)).1.owner = "kore") ∧
    (sends (SBA.package_tracking_handover d (some resp)).2 = [] ∧
     (SBA.package_tracking_handover d (some resp)).1.owner = "kore" ∧
     (SBA.package_tracking_handover d (some resp)).1.trackOrder = resp.text ∧
     (SBA.package_tracking_handover d (some resp)).1.content =
       resp.contentType) ∧
    (sends (SBA.Check_Return d (some resp)).2 = [] ∧
     (SBA.Check_Return d (some resp)).1.owner = "kore" ∧
     (SBA.Check_Return d (some resp)).1.returnStatus = resp.text ∧
     (SBA.Check_Return d (some resp)).1.content = resp.contentType) := by
  cases hEnd : resp.endConversation <;>
    simp [Dotcom.package_tracking_handover, Dotcom.Check_Return,
      Dotcom.safeEasySystemCall, Dotcom.packageTrackingCallback,
      Dotcom.checkReturnCallback, SBA.package_tracking_handover,
      SBA.Check_Return, sends, Effect.isSend, ha, ht, hEnd]

theorem C5_stash_non_send_witness :
    sends (Dotcom.package_tracking_handover sampleTurn
      (CallResult.success trackResp)).2 = [] ∧
    (Dotcom.package_tracking_handover sampleTurn
      (CallResult.success trackResp)).1.owner = "kore" ∧
    sends (SBA.Check_Return sampleTurn (some trackResp)).2 = [] ∧
    (SBA.Check_Return sampleTurn (some trackResp)).1.owner = "kore" := by
  have h := C5_stash_non_send sampleTurn trackResp rfl rfl
  exact ⟨h.1.1, h.1.2.1, h.2.2.2.1, h.2.2.2.2.1⟩

/-- A sample turn with the business unit missing. -/
def blankTurn : TurnData := { sampleTurn with businessUnit := none }

/-- C6: when the business unit is missing or empty, or the message is
blank, the user- and bot-message handlers of both variants perform no
backend call at all and relay the turn unchanged to the platform. -/
theorem C6_guard_skip (d : TurnData) (c : Bool) (p : SaveResult)
    (r : CallResult)
    (h : buMissingDotcom d.businessUnit = true ∨ msgBlank d.message = true) :
    Dotcom.on_user_message d c p r = (d, [Effect.sendBotMessage d.message]) ∧
    Dotcom.on_bot_message d c p = (d, [Effect.sendUserMessage d.message]) ∧
    SBA.on_user_message d c p r = (d, [Effect.sendBotMessage d.message]) ∧
    SBA.on_bot_message d c p = (d, [Effect.sendUserMessage d.message]) := by
  rcases h with h | h
  · have hs := buMissingSBA_of_buMissingDotcom d.businessUnit h
    simp [Dotcom.on_user_message, Dotcom.on_bot_message, SBA.on_user_message,
      SBA.on_bot_message, h, hs]
  · by_cases hbu : buMissingDotcom d.businessUnit = true <;>
      by_cases hsba : buMissingSBA d.businessUnit = true <;>
      simp [Dotcom.on_user_message, Dotcom.on_bot_message,
        SBA.on_user_message, SBA.on_bot_message, h, hbu, hsba]

theorem C6_guard_skip_witness :
    Dotcom.on_user_message blankTurn true SaveResult.success
      CallResult.circuitOpen =
      (blankTurn, [Effect.sendBotMessage blankTurn.message]) ∧
    SBA.on_bot_message blankTurn true SaveResult.success =
      (blankTurn, [Effect.sendUserMessage blankTurn.message]) := by
  have h := C6_guard_skip blankTurn true SaveResult.success
    CallResult.circuitOpen (Or.inl rfl)
  exact ⟨h.1, h.2.2.2⟩

/-- C7: when the circuit breaker denies a send call, both wrappers issue
no HTTP request and go directly to the failure path (agent transfer); the
transcript-save helper however, when the breaker denies it, still issues
the HTTP post (the source logs and fires the error callback but does not
return), and on a 2xx also records success and fires the success
callback. -/
theorem C7_breaker_gating :
    (∀ (s : String) (d : TurnData)
        (cb : EasyResponse → TurnData → TurnData × List Effect),
      (Dotcom.safeEasySystemCall s CallResult.circuitOpen d cb).2.countP
        Effect.isHttpPost = 0) ∧
    (∀ (s : String) (d : TurnData)
        (cb : EasyResponse → TurnData → TurnData × List Effect),
      (SBA.safeEasySystemCall s CallResult.circuitOpen d cb).2.countP
        Effect.isHttpPost = 0) ∧
    (∀ (s : String) (d : TurnData)
        (cb : EasyResponse → TurnData → TurnData × List Effect),
      (Dotcom.safeEasySystemCall s CallResult.circuitOpen d
        cb).1.agent_transfer = true) ∧
    Effect.httpPost "easysystem-save-api" ∈
      Dotcom.safeMessageSave false SaveResult.success ∧
    Effect.saveErrorCallback ∈
      Dotcom.safeMessageSave false SaveResult.success ∧
    Effect.saveSuccessCallback ∈
      Dotcom.safeMessageSave false SaveResult.success := by
  refine ⟨fun s d cb => rfl, fun s d cb => rfl, fun s d cb => rfl,
    ?_, ?_, ?_⟩ <;> decide

theorem sends_append (a b : List Effect) :
    sends (a ++ b) = sends a ++ sends b := by
  simp [sends, List.filter_append]

theorem sends_single_bot (m : Option String) :
    sends [Effect.sendBotMessage m] = [Effect.sendBotMessage m] := rfl

theorem sends_single_user (m : Option String) :
    sends [Effect.sendUserMessage m] = [Effect.sendUserMessage m] := rfl

theorem savePost_single_bot (m : Option String) :
    List.countP Effect.isSavePost [Effect.sendBotMessage m] = 0 := rfl

theorem savePost_single_user (m : Option String) :
    List.countP Effect.isSavePost [Effect.sendUserMessage m] = 0 := rfl

theorem call_user_effects_dotcom (r : CallResult) (d : TurnData) :
    sends (Dotcom.safeEasySystemCall "easysystem-send-api" r d
      Dotcom.userMessageCallback).2 ≠ [] ∧
    (Dotcom.safeEasySystemCall "easysystem-send-api" r d
      Dotcom.userMessageCallback).2.countP Effect.isSavePost = 0 := by
  rcases r with _ | _ | resp
  · exact ⟨by simp [Dotcom.safeEasySystemCall, Dotcom.triggerAgentTransfer,
      sends, Effect.isSend, truthy, Dotcom.holdMessage], rfl⟩
  · exact ⟨by simp [Dotcom.safeEasySystemCall, Dotcom.triggerAgentTransfer,
      sends, Effect.isSend, truthy, Dotcom.holdMessage], rfl⟩
  · by_cases hb : (resp.transfer || d.agent_transfer) = true
    · constructor
      · simp [Dotcom.safeEasySystemCall, Dotcom.triggerAgentTransfer, hb,
          sends, Effect.isSend]
      · simp [Dotcom.safeEasySystemCall, Dotcom.triggerAgentTransfer, hb,
          List.countP_cons, Effect.isSavePost]
    · have ht : resp.transfer = false := by
        cases hq : resp.transfer
        · rfl
        · exact absurd (by simp [hq]) hb
      have ha : d.agent_transfer = false := by
        cases hq : d.agent_transfer
        · rfl
        · exact absurd (by simp [hq]) hb
      by_cases he : resp.endConversation = true <;>
        constructor <;>
        simp [Dotcom.safeEasySystemCall, Dotcom.userMessageCallback, he,
          ht, ha, sends, Effect.isSend, List.countP_cons, Effect.isSavePost]

/-- C8: failure of the transcript-save call is absorbed locally: the
resulting turn and every user-visible send are identical no matter how the
breaker decided or how the save post ended, the user-message handler still
performs its primary relay, and at most one save request per invocation is
ever issued (no retries in this layer). -/
theorem C8_save_failure_absorbed (d : TurnData) (c c2 : Bool)
    (p p2 : SaveResult) (r : CallResult) :
    (Dotcom.on_user_message d c p r).1 = (Dotcom.on_user_message d c2 p2 r).1 ∧
    sends (Dotcom.on_user_message d c p r).2 =
      sends (Dotcom.on_user_message d c2 p2 r).2 ∧
    sends (Dotcom.on_user_message d c p r).2 ≠ [] ∧
    (Dotcom.on_user_message d c p r).2.countP Effect.isSavePost ≤ 1 ∧
    (Dotcom.on_bot_message d c p).1 = (Dotcom.on_bot_message d c2 p2).1 ∧
    sends (Dotcom.on_bot_message d c p).2 =
      sends (Dotcom.on_bot_message d c2 p2).2 ∧
    (Dotcom.on_bot_message d c p).2.countP Effect.isSavePost ≤ 1 := by
  have hse := call_user_effects_dotcom r d
  by_cases hg1 : buMissingDotcom d.businessUnit = true <;>
    by_cases hg2 : msgBlank d.message = true <;>
    by_cases hg3 : d.owner = "easysystem" <;>
    by_cases hg4 : d.message.isSome = true <;>
    simp [Dotcom.on_user_message, Dotcom.on_bot_message, hg1, hg2, hg3, hg4,
      sends_append, sends_safeMessageSave_dotcom,
      savePost_safeMessageSave_dotcom, sends_single_bot, sends_single_user,
      savePost_single_bot, savePost_single_user, List.countP_append,
      hse.1, hse.2]

theorem owner_trigger_dotcom (d : TurnData) (m : Option String) :
    (Dotcom.triggerAgentTransfer d m).1.owner = "kore" := rfl

theorem owner_trigger_sba (d : TurnData) (m : Option String) :
    (SBA.triggerAgentTransfer d m).1.owner = "kore" := rfl

theorem owner_trigger_part000 (d : TurnData) (m : Option String) :
    (Part000.triggerAgentTransfer d m).1.owner = "kore" := rfl

theorem owner_handleAT_dotcom (resp : EasyResponse) (d : TurnData)
    (h : ownerOk d) : ownerOk (Dotcom.handleAgentTransfer resp d).1 := by
  unfold Dotcom.handleAgentTransfer
  by_cases ht : resp.transfer = true
  · simp [ht, ownerOk]
  · simpa [ht, ownerOk] using h

theorem owner_userCb_dotcom (resp : EasyResponse) (d : TurnData)
    (h : ownerOk d) : ownerOk (Dotcom.userMessageCallback resp d).1 := by
  unfold Dotcom.userMessageCallback
  by_cases h1 : resp.transfer = true
  · simp [h1, ownerOk]
  · by_cases h2 : resp.endConversation = true
    · simp [h1, h2, ownerOk]
    · simpa [h1, h2, ownerOk] using h

theorem owner_cancelCb_dotcom (resp : EasyResponse) (d : TurnData)
    (h : ownerOk d) : ownerOk (Dotcom.cancelItemCallback resp d).1 := by
  unfold Dotcom.cancelItemCallback
  exact owner_handleAT_dotcom resp _ h

theorem owner_packageCb_dotcom (resp : EasyResponse) (d : TurnData) :
    (Dotcom.packageTrackingCallback resp d).1.owner = "kore" := rfl

theorem owner_checkReturnCb_dotcom (resp : EasyResponse) (d : TurnData) :
    (Dotcom.checkReturnCallback resp d).1.owner = "kore" := rfl

theorem owner_call_dotcom (s : String) (r : CallResult) (d : TurnData)
    (cb : EasyResponse → TurnData → TurnData × List Effect)
    (hcb : ∀ resp x, ownerOk x → ownerOk (cb resp x).1)
    (h : ownerOk d) : ownerOk (Dotcom.safeEasySystemCall s r d cb).1 := by
  rcases r with _ | _ | resp
  · exact Or.inl (owner_trigger_dotcom d (some Dotcom.holdMessage))
  · exact Or.inl (owner_trigger_dotcom d (some Dotcom.holdMessage))
  · by_cases hb : (resp.transfer || d.agent_transfer) = true
    · simp only [Dotcom.safeEasySystemCall, hb, if_true]
      exact Or.inl (owner_trigger_dotcom d resp.text)
    · simp only [Dotcom.safeEasySystemCall, hb, if_false, Bool.false_eq_true]
      exact hcb resp d h

theorem owner_call_sba (s : String) (r : CallResult) (d : TurnData)
    (cb : EasyResponse → TurnData → TurnData × List Effect)
    (hcb : ∀ resp x, ownerOk x → ownerOk (cb resp x).1)
    (h : ownerOk d) : ownerOk (SBA.safeEasySystemCall s r d cb).1 := by
  rcases r with _ | _ | resp
  · exact Or.inl (owner_trigger_sba d (some SBA.holdMessage))
  · exact Or.inl (owner_trigger_sba d (some SBA.holdMessage))
  · by_cases hb : (resp.transfer || d.agent_transfer) = true
    · simp only [SBA.safeEasySystemCall, hb, if_true]
      exact Or.inl (owner_trigger_sba d resp.text)
    · simp only [SBA.safeEasySystemCall, hb, if_false, Bool.false_eq_true]
      exact hcb resp d h

theorem owner_processESR_dotcom (d : TurnData) (resp : EasyResponse) :
    ownerOk (Dotcom.processEasySystemResponse d resp) := by
  unfold Dotcom.processEasySystemResponse
  by_cases h1 : resp.transfer = true <;>
    by_cases h2 : resp.endConversation = true <;>
    simp [h1, h2, ownerOk]

theorem owner_processESR_sba (d : TurnData) (resp : EasyResponse) :
    ownerOk (SBA.processEasySystemResponse d resp) := by
  unfold SBA.processEasySystemResponse
  by_cases h1 : resp.transfer = true <;>
    by_cases h2 : resp.endConversation = true <;>
    simp [h1, h2, ownerOk]

theorem owner_outcome_sba (d : TurnData) (resp : EasyResponse) :
    ownerOk (SBA.handleEasySendOutcome_Direct d resp).1 := by
  unfold SBA.handleEasySendOutcome_Direct
  by_cases h1 : resp.transfer = true
  · by_cases h2 : d.viaWebhook = true
    · simp [h1, h2, ownerOk]
    · simp only [h1, if_true]
      have h3 : ({ d with message := some (strOr resp.text "") } :
          TurnData).viaWebhook = d.viaWebhook := rfl
      simp [h2, h3, ownerOk, owner_trigger_sba]
  · by_cases h2 : resp.endConversation = true <;>
      simp only [h1, h2, if_false, if_true, Bool.false_eq_true] <;>
      exact owner_processESR_sba _ resp

theorem owner_error_sba (d : TurnData) :
    (SBA.handleEasySendError_Direct d).1.owner = "kore" := rfl

theorem owner_userCb_sba (resp : EasyResponse) (d : TurnData)
    (h : ownerOk d) : ownerOk (SBA.userMessageCallback resp d).1 := by
  unfold SBA.userMessageCallback
  by_cases h1 : resp.conversationEnd.getD false = true
  · simp [h1, ownerOk]
  · simpa [h1, ownerOk] using h

theorem owner_package_sba (d : TurnData) (post : Option EasyResponse) :
    (SBA.package_tracking_handover d post).1.owner = "kore" := by
  unfold SBA.package_tracking_handover
  rcases post with _ | resp
  · exact owner_trigger_sba d (some SBA.holdMessage)
  · by_cases h1 : resp.transfer = true <;>
      by_cases h2 : resp.endConversation = true <;>
      simp [h1, h2]

theorem owner_packageCb_part000 (resp : EasyResponse) (d : TurnData) :
    ownerOk (Part000.packageTrackingCallback resp d).1 := by
  unfold Part000.packageTrackingCallback Part000.handleAgentTransfer
  by_cases ht : resp.transfer = true <;> simp [ht, ownerOk]

theorem owner_call_part000 (s : String) (r : CallResult) (d : TurnData)
    (cb : EasyResponse → TurnData → TurnData × List Effect)
    (hcb : ∀ resp x, ownerOk x → ownerOk (cb resp x).1)
    (h : ownerOk d) : ownerOk (Part000.safeEasySystemCall s r d cb).1 := by
  rcases r with _ | _ | resp
  · exact Or.inl (owner_trigger_part000 d (some Part000.holdMessage))
  · exact Or.inl (owner_trigger_part000 d (some Part000.holdMessage))
  · by_cases hb : (resp.transfer || d.agent_transfer) = true
    · simp only [Part000.safeEasySystemCall, hb, if_true]
      exact Or.inl (owner_trigger_part000 _ (some Part000.expertMessage))
    · simp only [Part000.safeEasySystemCall, hb, if_false, Bool.false_eq_true]
      exact hcb resp d h

theorem owner_on_user_dotcom (d : TurnData) (c : Bool) (p : SaveResult)
    (r : CallResult) (h : ownerOk d) :
    ownerOk (Dotcom.on_user_message d c p r).1 := by
  unfold Dotcom.on_user_message
  by_cases hg1 : buMissingDotcom d.businessUnit = true
  · simpa [hg1] using h
  · by_cases hg2 : msgBlank d.message = true
    · simpa [hg1, hg2] using h
    · by_cases hg3 : d.owner = "easysystem"
      · simp only [hg1, hg2, hg3, if_true, if_false, Bool.false_eq_true]
        exact owner_call_dotcom _ r d _ owner_userCb_dotcom h
      · simpa [hg1, hg2, hg3] using h

theorem owner_on_bot_dotcom (d : TurnData) (c : Bool) (p : SaveResult)
    (h : ownerOk d) : ownerOk (Dotcom.on_bot_message d c p).1 := by
  unfold Dotcom.on_bot_message
  by_cases hg1 : buMissingDotcom d.businessUnit = true <;>
    by_cases hg2 : msgBlank d.message = true <;>
    by_cases hg3 : d.owner = "easysystem" <;>
    simpa [hg1, hg2, hg3] using h

theorem owner_on_user_sba (d : TurnData) (c : Bool) (p : SaveResult)
    (r : CallResult) (h : ownerOk d) :
    ownerOk (SBA.on_user_message d c p r).1 := by
  unfold SBA.on_user_message
  by_cases hg1 : buMissingSBA d.businessUnit = true
  · simpa [hg1] using h
  · by_cases hg2 : msgBlank d.message = true
    · simpa [hg1, hg2] using h
    · by_cases hg3 : d.owner = "easysystem"
      · simp only [hg1, hg2, hg3, if_true, if_false, Bool.false_eq_true]
        exact owner_call_sba _ r d _ owner_userCb_sba h
      · simpa [hg1, hg2, hg3] using h

theorem owner_on_bot_sba (d : TurnData) (c : Bool) (p : SaveResult)
    (h : ownerOk d) : ownerOk (SBA.on_bot_message d c p).1 := by
  unfold SBA.on_bot_message
  by_cases hg1 : buMissingSBA d.businessUnit = true <;>
    by_cases hg2 : msgBlank d.message = true <;>
    by_cases hg3 : d.owner = "easysystem" <;>
    simpa [hg1, hg2, hg3] using h

theorem owner_cancel_sba (d : TurnData) (r : CallResult) :
    ownerOk (SBA.Cancel_item d r).1 := by
  unfold SBA.Cancel_item
  rcases r with _ | _ | resp
  · exact Or.inl (owner_error_sba d)
  · exact Or.inl (owner_error_sba d)
  · exact owner_outcome_sba d resp

/-- C9: every modelled handler keeps the session owner inside the two-value
set (kore for the platform, easysystem for the backend): if the owner is
legal before the turn it is legal after, on every path including failure
paths. -/
theorem C9_ownership_invariant (d : TurnData) (resp : EasyResponse)
    (c : Bool) (p : SaveResult) (r : CallResult) (m : Option String)
    (post : Option EasyResponse) (h : ownerOk d) :
    ownerOk (Dotcom.on_user_message d c p r).1 ∧
    ownerOk (Dotcom.on_bot_message d c p).1 ∧
    ownerOk (Dotcom.package_tracking_handover d r).1 ∧
    ownerOk (Dotcom.Check_Return d r).1 ∧
    ownerOk (Dotcom.Cancel_item d r).1 ∧
    ownerOk (Dotcom.processEasySystemResponse d resp) ∧
    ownerOk (Dotcom.triggerAgentTransfer d m).1 ∧
    ownerOk (SBA.on_user_message d c p r).1 ∧
    ownerOk (SBA.on_bot_message d c p).1 ∧
    ownerOk (SBA.Cancel_item d r).1 ∧
    ownerOk (SBA.handleEasySendOutcome_Direct d resp).1 ∧
    ownerOk (SBA.package_tracking_handover d post).1 ∧
    ownerOk (Part000.package_tracking_handover d r).1 := by
  refine ⟨owner_on_user_dotcom d c p r h, owner_on_bot_dotcom d c p h,
    ?_, ?_, ?_, owner_processESR_dotcom d resp,
    Or.inl (owner_trigger_dotcom d m), owner_on_user_sba d c p r h,
    owner_on_bot_sba d c p h, owner_cancel_sba d r,
    owner_outcome_sba d resp, Or.inl (owner_package_sba d post), ?_⟩
  · exact owner_call_dotcom _ r d _
      (fun resp2 x _ => Or.inl (owner_packageCb_dotcom resp2 x)) h
  · exact owner_call_dotcom _ r d _
      (fun resp2 x _ => Or.inl (owner_checkReturnCb_dotcom resp2 x)) h
  · exact owner_call_dotcom _ r d _ owner_cancelCb_dotcom h
  · exact owner_call_part000 _ r d _
      (fun resp2 x _ => owner_packageCb_part000 resp2 x) h

theorem C9_ownership_invariant_witness :
    ownerOk (Dotcom.on_user_message sampleTurn true SaveResult.success
      (CallResult.success cancelResp)).1 ∧
    ownerOk (SBA.Cancel_item sampleTurn (CallResult.success cancelResp)).1 := by
  have h := C9_ownership_invariant sampleTurn cancelResp true
    SaveResult.success (CallResult.success cancelResp) none none (Or.inl rfl)
  exact ⟨h.1, h.2.2.2.2.2.2.2.2.2.1⟩

/-- C10: when both guards pass and the backend owns the session, the
bot-message handlers of both variants do nothing: no transcript save, no
send, no completion callback - the turn is dropped and left unchanged. -/
theorem C10_bot_message_dropped (d : TurnData) (c : Bool) (p : SaveResult)
    (h1 : buMissingDotcom d.businessUnit = false)
    (h2 : msgBlank d.message = false)
    (h3 : d.owner = "easysystem")
    (h4 : buMissingSBA d.businessUnit = false) :
    Dotcom.on_bot_message d c p = (d, []) ∧
    SBA.on_bot_message d c p = (d, []) := by
  simp [Dotcom.on_bot_message, SBA.on_bot_message, h1, h2, h3, h4]

theorem C10_bot_message_dropped_witness :
    Dotcom.on_bot_message easyOwnedTurn true SaveResult.success =
      (easyOwnedTurn, []) ∧
    SBA.on_bot_message easyOwnedTurn true SaveResult.success =
      (easyOwnedTurn, []) :=
  C10_bot_message_dropped easyOwnedTurn true SaveResult.success rfl rfl rfl rfl
